import Mathlib

/-
Verification of the cluster-diagnostics checks: the ClusterRouter check
(pkg/diagnostics/cluster/router.go) and the NodeConfigCheck (host package).
External collaborators (the cluster-API client, the config reader/validator,
the authorization query) are modelled as explicit inputs carrying their
responses; the result sink is modelled from the spec as an append-only list
of findings.
-/

set_option autoImplicit false
set_option maxRecDepth 100000

namespace Origin

/-- Modelled from the spec: severity levels of a finding, debug < info < warning < error. -/
inductive Level where
  | debug
  | info
  | warning
  | error
deriving DecidableEq, Repr

/-- Modelled from the spec: one finding in a result sink. It carries a severity
level, a stable message code, an optional wrapped underlying error (errors are
modelled as strings), the message template (the Go format string or named
template constant), the positional printf-style arguments, and the
named-parameter hash for templated messages. -/
structure Finding where
  level : Level
  code : String
  err : Option String
  template : String
  args : List String
  hash : List (String × String)
deriving DecidableEq, Repr

/-- Modelled from the spec: the Result Sink (types.DiagnosticResult, not under
src), an append-only ordered list of findings under a namespace. -/
structure DiagnosticResult where
  ns : String
  findings : List Finding
deriving DecidableEq, Repr

/-- Modelled from the spec: types.NewDiagnosticResult, an empty sink with the
given namespace. -/
def NewDiagnosticResult (ns : String) : DiagnosticResult :=
  ⟨ns, []⟩

/-- Modelled from the spec: appending one finding to the sink. -/
def DiagnosticResult.addFinding (r : DiagnosticResult) (f : Finding) : DiagnosticResult :=
  ⟨r.ns, r.findings ++ [f]⟩

/-- Modelled from the spec: Debugf(id, msg, args...) appends one debug finding. -/
def DiagnosticResult.Debugf (r : DiagnosticResult) (code template : String)
    (args : List String) : DiagnosticResult :=
  r.addFinding ⟨Level.debug, code, none, template, args, []⟩

/-- Modelled from the spec: Infof(id, msg, args...) appends one info finding. -/
def DiagnosticResult.Infof (r : DiagnosticResult) (code template : String)
    (args : List String) : DiagnosticResult :=
  r.addFinding ⟨Level.info, code, none, template, args, []⟩

/-- Modelled from the spec: Warnf(id, err, msg, args...) appends one warning finding. -/
def DiagnosticResult.Warnf (r : DiagnosticResult) (code : String) (err : Option String)
    (template : String) (args : List String) : DiagnosticResult :=
  r.addFinding ⟨Level.warning, code, err, template, args, []⟩

/-- Modelled from the spec: Errorf(id, err, msg, args...) appends one error finding. -/
def DiagnosticResult.Errorf (r : DiagnosticResult) (code : String) (err : Option String)
    (template : String) (args : List String) : DiagnosticResult :=
  r.addFinding ⟨Level.error, code, err, template, args, []⟩

/-- Modelled from the spec: Warnt(id, err, template, hash) appends one warning
finding with named-parameter substitution values. -/
def DiagnosticResult.Warnt (r : DiagnosticResult) (code : String) (err : Option String)
    (template : String) (hash : List (String × String)) : DiagnosticResult :=
  r.addFinding ⟨Level.warning, code, err, template, [], hash⟩

/-- Modelled from the spec: Errort(id, err, template, hash) appends one error
finding with named-parameter substitution values. -/
def DiagnosticResult.Errort (r : DiagnosticResult) (code : String) (err : Option String)
    (template : String) (hash : List (String × String)) : DiagnosticResult :=
  r.addFinding ⟨Level.error, code, err, template, [], hash⟩

/-- Pod lifecycle phase (kapi.PodPhase). -/
inductive PodPhase where
  | pending
  | running
  | succeeded
  | failed
  | unknown
deriving DecidableEq, Repr

/-- The parts of kapi.Pod the check reads: ObjectMeta.Name, Status.Phase and the
names of Spec.Containers. -/
structure Pod where
  name : String
  phase : PodPhase
  containers : List String
deriving DecidableEq, Repr

/-- The part of osapi.DeploymentConfig the check reads:
Template.ControllerTemplate.Selector, a label set. -/
structure DeploymentConfig where
  selector : List (String × String)
deriving DecidableEq, Repr

/-- The shape of the error returned by the DeploymentConfigs Get call, as the
code discriminates it: getRouterDC compares reflect.TypeOf the error with
the concrete type of a kerrs.StatusError pointer (the not-found shape) and
treats every other shape as a generic client error. -/
inductive LookupErr where
  | statusError (msg : String)
  | otherError (msg : String)
deriving DecidableEq, Repr

/-- Modelled from the spec: the responses of the excluded cluster-API client for
one invocation: get-by-name of the router DeploymentConfig,
list-by-label-selector of pods, open-log-stream per pod name (yielding the
lines the scanner would produce, already split; a read error truncates the
line sequence, since bufio.Scanner.Scan reports false on it), and the current
time, as Unix nanoseconds (time.Since compares against it). -/
structure ClusterState where
  dcResult : Except LookupErr DeploymentConfig
  listPods : List (String × String) → Except String (List Pod)
  logs : String → Except String (List String)
  now : Int

/-- The ClusterRouter diagnostic: its injected client handles, each either nil
(none) or present (some). -/
structure ClusterRouter where
  kubeClient : Option Unit
  osClient : Option Unit
deriving DecidableEq, Repr

def ClusterRouterName : String := "ClusterRouter"

def routerName : String := "router"

def clientAccessError : String :=
  "Client error while retrieving router records. Client retrieved records\nduring discovery, so this is likely to be a transient error. Try running\ndiagnostics again. If this message persists, there may be a permissions\nproblem with getting router records. The error was:\n\n(%T) %[1]v"

def clGetRtNone : String :=
  "\nThere is no \"%s\" DeploymentConfig. The router may have been named\nsomething different, in which case this warning may be ignored.\n\nA router is not strictly required; however it is needed for accessing\npods from external networks and its absence likely indicates an incomplete\ninstallation of the cluster.\n\nUse the \x27oadm router\x27 command to create a router.\n"

def clGetRtFailed : String :=
  "\nClient error while retrieving \"%s\" DC. Client retrieved records\nbefore, so this is likely to be a transient error. Try running\ndiagnostics again. If this message persists, there may be a permissions\nproblem with getting records. The error was:\n\n(%[2]T) %[2]v"

def clRtNoPods : String :=
  "\nThe \"%s\" DeploymentConfig exists but has no running pods, so it\nis not available. Apps will not be externally accessible via the router."

def clRtPodLog : String :=
  "\nFailed to read the logs for the \"\x7b\x7b.podName\x7d\x7d\" pod belonging to\nthe router deployment. This is not a problem by itself but prevents\ndiagnostics from looking for errors in those logs. The error encountered\nwas:\n\x7b\x7b.error\x7d\x7d"

def clRtPodConn : String :=
  "\nRecent pod logs for the \"\x7b\x7b.podName\x7d\x7d\" pod belonging to\nthe router deployment indicated a problem requesting route information\nfrom the master. This prevents the router from functioning, so\napplications will not be externally accessible via the router.\n\nThere are many reasons for this request to fail, including invalid\ncredentials, DNS failures, master outages, and so on. Examine the\nfollowing error message from the router pod logs to determine the\ncause of the problem:\n\n\x7b\x7b.reason\x7d\x7d\nTime: \x7b\x7b.timestamp\x7d\x7d"

/-- ClusterRouter.Name as written in router.go: it returns the quoted literal
"ClusterRouterName", not the constant ClusterRouterName. -/
def ClusterRouter.Name (_ : ClusterRouter) : String :=
  "ClusterRouterName"

def ClusterRouter.Description (_ : ClusterRouter) : String :=
  "Check there is a working router"

/-- ClusterRouter.CanRun. The adminCan authorization query (get dc router in the
default namespace; its source is not under src) is modelled from the spec as an
input carrying its response: an error or an allowed/denied boolean. The Go
DiagnosticError values are modelled by the string shown in their message; in
every failing branch the returned error value is non-nil, so the error
component is some-valued there. -/
def ClusterRouter.CanRun (d : ClusterRouter) (adminCanResult : Except String Bool) :
    Bool × Option String :=
  if d.kubeClient = none ∨ d.osClient = none then
    (false, some "must have kube and os client")
  else
    match adminCanResult with
    | Except.error e => (false, some e)
    | Except.ok can =>
      if can = false then (false, some "Client does not have cluster-admin access")
      else (true, none)

/-- getRouterDC: branch on the Get response as the code does (StatusError shape
first, then any other error, else success). -/
def getRouterDC (st : ClusterState) (r : DiagnosticResult) :
    DiagnosticResult × Option DeploymentConfig :=
  match st.dcResult with
  | Except.error (LookupErr.statusError e) =>
    (r.Warnf "DClu2001" (some e) clGetRtNone [routerName], none)
  | Except.error (LookupErr.otherError e) =>
    (r.Errorf "DClu2002" (some e) clGetRtFailed [routerName, e], none)
  | Except.ok dc =>
    (r.Debugf "DClu2003" "Found default router DC" [], some dc)

/-- The body of getRouterPods's partition loop over the listed pods. -/
def podStep (acc : DiagnosticResult × List Pod) (pod : Pod) : DiagnosticResult × List Pod :=
  if pod.phase ≠ PodPhase.running then
    (acc.1.Debugf "DClu2005" "router pod with name %s is not running" [pod.name], acc.2)
  else
    (acc.1.Debugf "DClu2006" "Found running router pod with name %s" [pod.name],
      acc.2 ++ [pod])

/-- getRouterPods: list the pods selected by the DC's selector, partition by
phase, and fail with DClu2007 when no pod is running. -/
def getRouterPods (st : ClusterState) (dc : DeploymentConfig) (r : DiagnosticResult) :
    DiagnosticResult × Option (List Pod) :=
  match st.listPods dc.selector with
  | Except.error e =>
    (r.Errorf "DClu2004" (some e)
      "Finding pods for \x27%s\x27 DeploymentConfig failed. This should never happen. Error: (%[2]T) %[2]v"
      [routerName, e], none)
  | Except.ok pods =>
    let p := pods.foldl podStep (r, [])
    if p.2.isEmpty then
      (p.1.Errorf "DClu2007" none clRtNoPods [routerName], none)
    else
      (p.1, some p.2)

/-- The literal part of the log failure pattern, between the leading
non-space timestamp group and the trailing reason group. -/
def failureLit : List Char := "Failed to list *api.Route: ".data

/-- Go regexp whitespace class: the characters matched by backslash-s (and
excluded from the backslash-S of the timestamp group). -/
def isSpaceGo (c : Char) : Bool :=
  c = ' ' ∨ c = '\t' ∨ c = '\n' ∨ c = '\x0c' ∨ c = '\r'

/-- Length of the longest non-space prefix of the line, the maximal extent of
the leading greedy group of the pattern. -/
def leadingNonSpace : List Char → Nat
  | [] => 0
  | c :: rest => if isSpaceGo c then 0 else leadingNonSpace rest + 1

/-- Index of the first newline in the line (its length when none): a Go regexp
dot never crosses it. -/
def idxNL : List Char → Nat
  | [] => 0
  | c :: rest => if c = '\n' then 0 else idxNL rest + 1

/-- The submatch extraction of the fixed failure pattern
caret (backslash-S+) dot-star Failed to list *api.Route: (dot-star),
under Go leftmost-first semantics with greedy quantifiers: the leading group
takes the longest non-space prefix that still leaves an occurrence of the
literal to its right, the inner dot-star selects the last such occurrence not
crossing a newline, and the reason group runs from there to the end of line
(or the next newline). Yields the captured timestamp text and reason text. -/
def matchFailureLine (s : String) : Option (String × String) :=
  let cs := s.data
  let m := leadingNonSpace cs
  let nl := idxNL cs
  match ((List.range (cs.length + 1)).filter fun j =>
      failureLit.isPrefixOf (cs.drop j) ∧ 1 ≤ j ∧ j ≤ nl).getLast? with
  | none => none
  | some j =>
    if 1 ≤ m then
      some (⟨cs.take (min m j)⟩, ⟨(cs.drop (j + failureLit.length)).takeWhile (· ≠ '\n')⟩)
    else
      none

def digitVal (c : Char) : Option Nat :=
  if '0' ≤ c ∧ c ≤ '9' then some (c.toNat - '0'.toNat) else none

def digitsToNat (cs : List Char) : Option Nat :=
  cs.foldl (fun acc c => acc.bind fun n => (digitVal c).map fun d => n * 10 + d) (some 0)

/-- The numeric reader of the Go time parser (getnum): a fixed element demands
exactly two digits; a non-fixed element takes two digits when the second
character is also a digit and otherwise a single digit. Yields the value and
the remaining input. -/
def getnum (cs : List Char) (fixed : Bool) : Option (Nat × List Char) :=
  match cs with
  | [] => none
  | c1 :: rest1 =>
    match digitVal c1 with
    | none => none
    | some d1 =>
      match rest1 with
      | [] => if fixed then none else some (d1, [])
      | c2 :: rest2 =>
        match digitVal c2 with
        | some d2 => some (d1 * 10 + d2, rest2)
        | none => if fixed then none else some (d1, rest1)

/-- The four-digit year element of the layout: exactly four digits. -/
def year4 (cs : List Char) : Option (Nat × List Char) :=
  match cs with
  | a :: b :: c :: d :: rest =>
    match digitVal a, digitVal b, digitVal c, digitVal d with
    | some x, some y, some z, some w => some (((x * 10 + y) * 10 + z) * 10 + w, rest)
    | _, _, _, _ => none
  | _ => none

/-- A literal character of the layout must match exactly. -/
def litChar (c : Char) (cs : List Char) : Option (List Char) :=
  match cs with
  | [] => none
  | x :: rest => if x = c then some rest else none

/-- The nine-zero fractional element: a dot, then nine more characters read as
a nonnegative integer by the parser's atoi, which also lets the run of
digits begin with a plus sign (a leading minus sign parses but fails the
nonnegative range check, so it is a failure here). -/
def frac9 (cs : List Char) : Option (Nat × List Char) :=
  match cs with
  | [] => none
  | p :: rest =>
    if p = '.' then
      if (rest.take 9).length = 9 then
        match rest.take 9 with
        | '+' :: ds => (digitsToNat ds).map fun n => (n, rest.drop 9)
        | ds => (digitsToNat ds).map fun n => (n, rest.drop 9)
      else none
    else none

/-- Days since the Unix epoch of a civil date (proleptic Gregorian), the
standard era-based computation used to turn the parsed fields into the
absolute instant Go's time.Date produces. -/
def daysFromCivil (y mo d : Nat) : Int :=
  let yi : Int := (y : Int) - (if mo ≤ 2 then 1 else 0)
  let era : Int := Int.fdiv yi 400
  let yoe : Int := yi - era * 400
  let mp : Int := if 2 < mo then (mo : Int) - 3 else (mo : Int) + 9
  let doy : Int := Int.fdiv (153 * mp + 2) 5 + (d : Int) - 1
  let doe : Int := yoe * 365 + Int.fdiv yoe 4 - Int.fdiv yoe 100 + doy
  era * 146097 + doe - 719468

/-- time.Parse under the fixed reference layout 2006-01-02T15:04:05.000000000Z,
element by element as the Go parser walks it: a four-digit year; literal
separators; the zero-padded month, day, minute and second elements read by
getnum as exactly two digits each; the hour element 15 read by getnum in its
lenient mode, so one or two digits; the nine-zero fractional element; and a
trailing literal Z (a lone Z in a layout is not a zone element), so the
instant is UTC, with nothing allowed after it. The range checks the parser
applies on this layout: month 1..12, hour 0..23, minute 0..59, second 0..59,
nonnegative fraction. The day is only required to be numeric: the toolchain
of this repository's vintage leaves day-of-month validation to the calendar
normalization of time.Date (the explicit in-month rejection postdates it),
and that normalization is performed by the era-based civil-day conversion
above, which likewise carries any two-digit day into the neighbouring
months. Yields the instant as Unix nanoseconds. -/
def parseTimestamp (s : String) : Option Int :=
  (year4 s.data).bind fun yr =>
  (litChar '-' yr.2).bind fun r2 =>
  (getnum r2 true).bind fun mo =>
  (litChar '-' mo.2).bind fun r4 =>
  (getnum r4 true).bind fun dy =>
  (litChar 'T' dy.2).bind fun r6 =>
  (getnum r6 false).bind fun hr =>
  (litChar ':' hr.2).bind fun r8 =>
  (getnum r8 true).bind fun mi =>
  (litChar ':' mi.2).bind fun r10 =>
  (getnum r10 true).bind fun se =>
  (frac9 se.2).bind fun ns =>
  (litChar 'Z' ns.2).bind fun r13 =>
  if 1 ≤ mo.1 ∧ mo.1 ≤ 12 ∧ hr.1 ≤ 23 ∧ mi.1 ≤ 59 ∧ se.1 ≤ 59 ∧ r13 = [] then
    some ((daysFromCivil yr.1 mo.1 dy.1 * 86400 +
      ((hr.1 * 3600 + mi.1 * 60 + se.1 : Nat) : Int)) * 1000000000 + (ns.1 : Int))
  else none

/-- The recency threshold, in nanoseconds. The Go source compares
time.Since(stamp).Seconds() < 30.0 in float64; for an integer nanosecond
duration n this holds exactly when n < 30e9 (the quotient n/1e9 rounds to a
double strictly below 30 exactly for those n, since 30.0 and 30e9/1e9 are
exact and the rounding error near 30 is far below 1e-9), so the comparison is
embedded over the integers. -/
def recencyNanos : Int := 30000000000

/-- The scan loop of checkRouterLogs over the lines of one pod's stream: on
each line try the pattern; on a match parse the captured timestamp and, when
it parses and is recent, emit DClu2009 and break. Yields the updated sink and
the lines left unread at exit. -/
def scanLines (now : Int) (podName : String) (r : DiagnosticResult) :
    List String → DiagnosticResult × List String
  | [] => (r, [])
  | line :: rest =>
    match matchFailureLine line with
    | some (ts, reason) =>
      match parseTimestamp ts with
      | some t =>
        if now - t < recencyNanos then
          (r.Errort "DClu2009" none clRtPodConn
            [("reason", reason), ("timestamp", ts), ("podName", podName)], rest)
        else
          scanLines now podName r rest
      | none => scanLines now podName r rest
    | none => scanLines now podName r rest

/-- getPodLogScanner: builds the log-stream request for the pod's first
container. Evaluating Containers[0] on an empty container list is a Go
runtime panic before any stream is opened; that abort is modelled as none.
Otherwise the client's open-stream response is returned as given. -/
def getPodLogScanner (st : ClusterState) (pod : Pod) :
    Option (Except String (List String)) :=
  match pod.containers with
  | [] => none
  | _ :: _ => some (st.logs pod.name)

/-- The observable outcome of one per-pod scan: the updated sink, whether the
stream was successfully opened, how many times Close ran on it, and the lines
left unread at exit. -/
structure ScanOutcome where
  result : DiagnosticResult
  opened : Bool
  closes : Nat
  unread : List String
deriving DecidableEq, Repr

/-- checkRouterLogs: open the pod's log scanner; on an open error emit the
DClu2008 warning and return without any stream to close; on success the
deferred Close runs exactly once on every exit of the scan loop (end of
stream, read error ending the stream, or the break on a recent match). A
panic from the scanner construction propagates (none). -/
def checkRouterLogs (st : ClusterState) (pod : Pod) (r : DiagnosticResult) :
    Option ScanOutcome :=
  match getPodLogScanner st pod with
  | none => none
  | some (Except.error e) =>
    some ⟨r.Warnt "DClu2008" (some e) clRtPodLog
      [("error", e), ("podName", pod.name)], false, 0, []⟩
  | some (Except.ok lines) =>
    let s := scanLines st.now pod.name r lines
    some ⟨s.1, true, 1, s.2⟩

/-- The per-pod loop of Check over the running pods: a panic in any iteration
aborts the whole check (none), otherwise each iteration threads the sink
through checkRouterLogs. -/
def scanPodsAux (st : ClusterState) (pods : List Pod) (acc : Option DiagnosticResult) :
    Option DiagnosticResult :=
  pods.foldl (fun a pod => a.bind fun cur => (checkRouterLogs st pod cur).map ScanOutcome.result) acc

/-- ClusterRouter.Check: build the sink under the ClusterRouterName namespace,
resolve the router DC, list and filter its pods, and scan each running pod's
logs. A nil result from an earlier stage returns the sink as filled so far;
none models the whole invocation aborting on a panic. -/
def ClusterRouter.Check (st : ClusterState) : Option DiagnosticResult :=
  let r := NewDiagnosticResult ClusterRouterName
  match getRouterDC st r with
  | (r1, none) => some r1
  | (r1, some dc) =>
    match getRouterPods st dc r1 with
    | (r2, none) => some r2
    | (r2, some pods) => scanPodsAux st pods (some r2)

/-- The NodeConfigCheck diagnostic and its injected config-file path. -/
structure NodeConfigCheck where
  NodeConfigFile : String
deriving DecidableEq, Repr

def NodeConfigCheckName : String := "NodeConfigCheck"

def NodeConfigCheck.Name (_ : NodeConfigCheck) : String :=
  NodeConfigCheckName

def NodeConfigCheck.Description (_ : NodeConfigCheck) : String :=
  "Check the node config file"

def NodeConfigCheck.CanRun (d : NodeConfigCheck) : Bool × Option String :=
  if d.NodeConfigFile.length = 0 then (false, some "must have node config file")
  else (true, none)

/-- NodeConfigCheck.Check. The excluded collaborators are modelled from the
spec as inputs carrying their responses: readResult is the outcome of
ReadAndResolveNodeConfig (ok, or the read error), and validationErrs the list
of errors ValidateNodeConfig returns on the parsed config. -/
def NodeConfigCheck.Check (d : NodeConfigCheck) (readResult : Except String Unit)
    (validationErrs : List String) : DiagnosticResult :=
  let r := NewDiagnosticResult NodeConfigCheckName
  let r := r.Debugf "DH1001" "Looking for node config file at \x27%s\x27" [d.NodeConfigFile]
  match readResult with
  | Except.error e =>
    r.Errorf "DH1002" (some e) "Could not read node config file \x27%s\x27:\n(%T) %[2]v"
      [d.NodeConfigFile, e]
  | Except.ok _ =>
    let r := r.Infof "DH1003" "Found a node config file: %[1]s" [d.NodeConfigFile]
    validationErrs.foldl
      (fun acc e => acc.Errorf "DH1004" (some e)
        "Validation of node config file \x27%s\x27 failed:\n(%T) %[2]v" [d.NodeConfigFile, e])
      r

/-- Number of findings of the given severity in a list. -/
def countLevel (lv : Level) (fs : List Finding) : Nat :=
  (fs.filter fun f => decide (f.level = lv)).length

/-- The single debug finding a pod produces in getRouterPods's partition. -/
def podPhaseFinding (p : Pod) : Finding :=
  if p.phase = PodPhase.running then
    ⟨Level.debug, "DClu2006", none, "Found running router pod with name %s", [p.name], []⟩
  else
    ⟨Level.debug, "DClu2005", none, "router pod with name %s is not running", [p.name], []⟩

/-- The debug finding of a successful DC lookup. -/
def routerDCFinding : Finding :=
  ⟨Level.debug, "DClu2003", none, "Found default router DC", [], []⟩

/-- The finding a failed DC lookup produces, by the shape of the error. -/
def dcLookupFinding : LookupErr → Finding
  | LookupErr.statusError e => ⟨Level.warning, "DClu2001", some e, clGetRtNone, [routerName], []⟩
  | LookupErr.otherError e => ⟨Level.error, "DClu2002", some e, clGetRtFailed, [routerName, e], []⟩

theorem scanLines_nil (now : Int) (p : String) (r : DiagnosticResult) :
    scanLines now p r [] = (r, []) := rfl

theorem foldl_podStep (pods : List Pod) (r : DiagnosticResult) (acc : List Pod) :
    pods.foldl podStep (r, acc) =
      (⟨r.ns, r.findings ++ pods.map podPhaseFinding⟩,
        acc ++ pods.filter fun p => decide (p.phase = PodPhase.running)) := by
  induction pods generalizing r acc with
  | nil => simp
  | cons p ps ih =>
    simp only [List.foldl_cons, List.map_cons, List.filter_cons]
    by_cases hp : p.phase = PodPhase.running
    · rw [show podStep (r, acc) p =
          (r.Debugf "DClu2006" "Found running router pod with name %s" [p.name], acc ++ [p])
        by simp [podStep, hp]]
      rw [ih]
      simp [DiagnosticResult.Debugf, DiagnosticResult.addFinding, podPhaseFinding, hp]
    · rw [show podStep (r, acc) p =
          (r.Debugf "DClu2005" "router pod with name %s is not running" [p.name], acc)
        by simp [podStep, hp]]
      rw [ih]
      simp [DiagnosticResult.Debugf, DiagnosticResult.addFinding, podPhaseFinding, hp]

theorem countLevel_map_podPhaseFinding (pods : List Pod) :
    countLevel Level.error (pods.map podPhaseFinding) = 0 := by
  induction pods with
  | nil => rfl
  | cons p ps ih =>
    simp only [List.map_cons, countLevel, List.filter_cons] at ih ⊢
    have : (podPhaseFinding p).level = Level.debug := by
      unfold podPhaseFinding; split <;> rfl
    simp [this, ih]

/-- A pod of the router deployment used by the concrete witnesses. -/
def wpod1 : Pod := ⟨"router-1", PodPhase.running, ["router"]⟩

/-- C2: when the workload lookup fails, the check terminates with exactly one
finding and nothing else: a warning-level DClu2001 finding for the
StatusError (not-found) shape, and an error-level DClu2002 finding wrapping
the underlying error for any other lookup error; no pod-listing or
log-scanning findings appear in either case. -/
theorem c2_lookup_error_terminates (le : LookupErr)
    (lp : List (String × String) → Except String (List Pod))
    (lg : String → Except String (List String)) (now : Int) :
    ClusterRouter.Check ⟨Except.error le, lp, lg, now⟩ =
      some ⟨ClusterRouterName, [dcLookupFinding le]⟩ ∧
    (∀ e, (dcLookupFinding (LookupErr.statusError e)).level = Level.warning ∧
      (dcLookupFinding (LookupErr.statusError e)).err = some e) ∧
    (∀ e, (dcLookupFinding (LookupErr.otherError e)).level = Level.error ∧
      (dcLookupFinding (LookupErr.otherError e)).err = some e) := by
  refine ⟨?_, fun e => ⟨rfl, rfl⟩, fun e => ⟨rfl, rfl⟩⟩
  cases le <;> rfl

/-- C3: the code returns the quoted literal "ClusterRouterName" from Name()
while Check() creates its result sink under the constant ClusterRouterName,
whose value is "ClusterRouter"; the two identifiers differ, so Name() is not
the namespace of the sink Check() returns. -/
theorem c3_name_differs_from_sink_namespace :
    ClusterRouter.Name ⟨some (), some ()⟩ = "ClusterRouterName" ∧
    (ClusterRouter.Check ⟨Except.error (LookupErr.statusError "nf"),
        fun _ => Except.ok [], fun _ => Except.ok [], 0⟩).map DiagnosticResult.ns =
      some ClusterRouterName ∧
    ClusterRouterName = "ClusterRouter" ∧
    ClusterRouter.Name ⟨some (), some ()⟩ ≠ ClusterRouterName :=
  ⟨rfl, rfl, rfl, by decide⟩

/-- C5: once the pod list is obtained, every pod yields one debug finding
(DClu2005 when not running, DClu2006 when running), the later log scan runs
over exactly the running subset, and when that subset is empty the check
appends exactly one error-level finding (DClu2007) and performs no log scan;
the sink holds no other error-level finding at that point. -/
theorem c5_pod_partition (st : ClusterState) (dc : DeploymentConfig) (pods : List Pod)
    (h1 : st.dcResult = Except.ok dc)
    (h2 : st.listPods dc.selector = Except.ok pods) :
    ClusterRouter.Check st =
      (if (pods.filter fun p => decide (p.phase = PodPhase.running)).isEmpty then
        some (DiagnosticResult.Errorf
          ⟨ClusterRouterName, routerDCFinding :: pods.map podPhaseFinding⟩
          "DClu2007" none clRtNoPods [routerName])
      else
        scanPodsAux st (pods.filter fun p => decide (p.phase = PodPhase.running))
          (some ⟨ClusterRouterName, routerDCFinding :: pods.map podPhaseFinding⟩)) ∧
    countLevel Level.error (routerDCFinding :: pods.map podPhaseFinding) = 0 := by
  constructor
  · have hdc : getRouterDC st (NewDiagnosticResult ClusterRouterName) =
        (⟨ClusterRouterName, [routerDCFinding]⟩, some dc) := by
      unfold getRouterDC
      rw [h1]
      rfl
    have hgp : getRouterPods st dc (⟨ClusterRouterName, [routerDCFinding]⟩ : DiagnosticResult) =
        (if (pods.filter fun p => decide (p.phase = PodPhase.running)).isEmpty then
          (DiagnosticResult.Errorf
            ⟨ClusterRouterName, routerDCFinding :: pods.map podPhaseFinding⟩
            "DClu2007" none clRtNoPods [routerName], none)
        else
          (⟨ClusterRouterName, routerDCFinding :: pods.map podPhaseFinding⟩,
            some (pods.filter fun p => decide (p.phase = PodPhase.running)))) := by
      simp only [getRouterPods, h2]
      rw [foldl_podStep]
      simp only [List.nil_append, List.singleton_append]
    simp only [ClusterRouter.Check]
    rw [hdc]
    simp only
    rw [hgp]
    by_cases hr : (pods.filter fun p => decide (p.phase = PodPhase.running)).isEmpty
    · simp [hr]
    · simp [hr]
  · have h0 := countLevel_map_podPhaseFinding pods
    simp only [countLevel, List.filter_cons] at h0 ⊢
    simpa [routerDCFinding] using h0

/-- The cluster state of the C5 witness: one listed pod, not running. -/
def wst5 : ClusterState :=
  ⟨Except.ok ⟨[]⟩, fun _ => Except.ok [⟨"p1", PodPhase.pending, []⟩],
    fun _ => Except.ok [], 0⟩

theorem c5_pod_partition_witness :
    ClusterRouter.Check wst5 =
      (if (([⟨"p1", PodPhase.pending, []⟩] : List Pod).filter
          fun p => decide (p.phase = PodPhase.running)).isEmpty then
        some (DiagnosticResult.Errorf
          ⟨ClusterRouterName,
            routerDCFinding :: ([⟨"p1", PodPhase.pending, []⟩] : List Pod).map podPhaseFinding⟩
          "DClu2007" none clRtNoPods [routerName])
      else
        scanPodsAux wst5 (([⟨"p1", PodPhase.pending, []⟩] : List Pod).filter
            fun p => decide (p.phase = PodPhase.running))
          (some ⟨ClusterRouterName,
            routerDCFinding :: ([⟨"p1", PodPhase.pending, []⟩] : List Pod).map podPhaseFinding⟩)) ∧
    countLevel Level.error
      (routerDCFinding :: ([⟨"p1", PodPhase.pending, []⟩] : List Pod).map podPhaseFinding) = 0 :=
  c5_pod_partition wst5 ⟨[]⟩ [⟨"p1", PodPhase.pending, []⟩] rfl rfl

/-- C6: on every exit path of the per-pod scan the stream is closed exactly
once when it was successfully opened, and a stream that was never
successfully opened is never closed. -/
theorem c6_close_exactly_once (st : ClusterState) (pod : Pod) (r : DiagnosticResult)
    (out : ScanOutcome) (h : checkRouterLogs st pod r = some out) :
    out.closes = (if out.opened = true then 1 else 0) ∧
    (out.opened = false → out.closes = 0) := by
  unfold checkRouterLogs at h
  cases hg : getPodLogScanner st pod with
  | none =>
    rw [hg] at h
    exact absurd h (by simp)
  | some res =>
    rw [hg] at h
    cases res with
    | error e =>
      simp only at h
      injection h with h
      subst h
      simp
    | ok lines =>
      simp only at h
      injection h with h
      subst h
      simp

/-- The cluster state of the C6 witness: the single pod's stream opens and
holds one harmless line. -/
def wst6 : ClusterState :=
  ⟨Except.ok ⟨[]⟩, fun _ => Except.ok [], fun _ => Except.ok ["one line"], 0⟩

theorem c6_close_exactly_once_witness :
    (⟨NewDiagnosticResult ClusterRouterName, true, 1, []⟩ : ScanOutcome).closes =
      (if (⟨NewDiagnosticResult ClusterRouterName, true, 1, []⟩ : ScanOutcome).opened = true
        then 1 else 0) ∧
    ((⟨NewDiagnosticResult ClusterRouterName, true, 1, []⟩ : ScanOutcome).opened = false →
      (⟨NewDiagnosticResult ClusterRouterName, true, 1, []⟩ : ScanOutcome).closes = 0) :=
  c6_close_exactly_once wst6 ⟨"p", PodPhase.running, ["c"]⟩
    (NewDiagnosticResult ClusterRouterName)
    ⟨NewDiagnosticResult ClusterRouterName, true, 1, []⟩ (by rfl)

/-- C7: the inspection routine is not abort-free: on a cluster state whose
router deployment has a running pod with an empty container list, evaluating
the first container of the pod aborts the whole check before a sink is
returned (modelled as none), while the same state with a non-empty container
list returns the populated sink. -/
theorem c7_empty_containers_abort :
    ClusterRouter.Check ⟨Except.ok ⟨[("router", "router")]⟩,
        fun _ => Except.ok [⟨"router-1", PodPhase.running, []⟩],
        fun _ => Except.ok [], 0⟩ = none ∧
    ClusterRouter.Check ⟨Except.ok ⟨[("router", "router")]⟩,
        fun _ => Except.ok [⟨"router-1", PodPhase.running, ["router"]⟩],
        fun _ => Except.ok [], 0⟩ =
      some ⟨ClusterRouterName, [routerDCFinding,
        podPhaseFinding ⟨"router-1", PodPhase.running, ["router"]⟩]⟩ :=
  ⟨rfl, rfl⟩

/-- C8: when opening a pod's log stream fails, the scan emits exactly one
warning-level finding (DClu2008) naming the pod and carrying the open error,
closes nothing, and the per-pod loop continues with the next pod instead of
terminating the check. -/
theorem c8_open_error_warning_continues (st : ClusterState) (pod : Pod)
    (r : DiagnosticResult) (rest : List Pod) (e : String)
    (hc : pod.containers ≠ [])
    (he : st.logs pod.name = Except.error e) :
    checkRouterLogs st pod r =
      some ⟨r.Warnt "DClu2008" (some e) clRtPodLog
        [("error", e), ("podName", pod.name)], false, 0, []⟩ ∧
    scanPodsAux st (pod :: rest) (some r) =
      scanPodsAux st rest
        (some (r.Warnt "DClu2008" (some e) clRtPodLog
          [("error", e), ("podName", pod.name)])) := by
  have h1 : checkRouterLogs st pod r =
      some ⟨r.Warnt "DClu2008" (some e) clRtPodLog
        [("error", e), ("podName", pod.name)], false, 0, []⟩ := by
    unfold checkRouterLogs getPodLogScanner
    cases hcs : pod.containers with
    | nil => exact absurd hcs hc
    | cons c cs => rw [he]
  refine ⟨h1, ?_⟩
  unfold scanPodsAux
  rw [List.foldl_cons]
  simp [h1]

/-- The cluster state of the C8 witness: opening the pod's log stream fails. -/
def wst8 : ClusterState :=
  ⟨Except.ok ⟨[]⟩, fun _ => Except.ok [], fun _ => Except.error "stream err", 0⟩

theorem c8_open_error_warning_continues_witness :
    checkRouterLogs wst8 wpod1 (NewDiagnosticResult ClusterRouterName) =
      some ⟨(NewDiagnosticResult ClusterRouterName).Warnt "DClu2008" (some "stream err")
        clRtPodLog [("error", "stream err"), ("podName", "router-1")], false, 0, []⟩ ∧
    scanPodsAux wst8 [wpod1] (some (NewDiagnosticResult ClusterRouterName)) =
      scanPodsAux wst8 []
        (some ((NewDiagnosticResult ClusterRouterName).Warnt "DClu2008" (some "stream err")
          clRtPodLog [("error", "stream err"), ("podName", "router-1")])) :=
  c8_open_error_warning_continues wst8 wpod1 (NewDiagnosticResult ClusterRouterName)
    [] "stream err" (by decide) (by rfl)

/-- C9: each CanRun returns false together with a non-nil error exactly when a
required dependency is absent or authorization fails: for ClusterRouter, when
either client handle is nil, the authorization query errors, or it returns
denied; for NodeConfigCheck, when the config file path is empty; in every
other case CanRun returns true with a nil error. -/
theorem c9_canrun_gate (d : ClusterRouter) (a : Except String Bool) (nc : NodeConfigCheck) :
    ((ClusterRouter.CanRun d a).1 = false ∧ (ClusterRouter.CanRun d a).2 ≠ none ↔
      d.kubeClient = none ∨ d.osClient = none ∨ (∃ e, a = Except.error e) ∨
        a = Except.ok false) ∧
    (ClusterRouter.CanRun d a = (true, none) ↔
      d.kubeClient ≠ none ∧ d.osClient ≠ none ∧ a = Except.ok true) ∧
    ((NodeConfigCheck.CanRun nc).1 = false ∧ (NodeConfigCheck.CanRun nc).2 ≠ none ↔
      nc.NodeConfigFile.length = 0) ∧
    (NodeConfigCheck.CanRun nc = (true, none) ↔ nc.NodeConfigFile.length ≠ 0) := by
  obtain ⟨kc, oc⟩ := d
  obtain ⟨file⟩ := nc
  have hnc : (NodeConfigCheck.CanRun ⟨file⟩).1 = false ∧
      (NodeConfigCheck.CanRun ⟨file⟩).2 ≠ none ↔ file.length = 0 := by
    by_cases hf : file.length = 0 <;> simp [NodeConfigCheck.CanRun, hf]
  have hnc2 : NodeConfigCheck.CanRun ⟨file⟩ = (true, none) ↔ file.length ≠ 0 := by
    by_cases hf : file.length = 0 <;> simp [NodeConfigCheck.CanRun, hf]
  refine ⟨?_, ?_, hnc, hnc2⟩ <;>
    cases kc <;> cases oc <;>
    rcases a with e | can <;>
    simp [ClusterRouter.CanRun] <;>
    cases can <;> simp

/-- The per-error finding of the node-config validation loop. -/
def nodeVErrFinding (d : NodeConfigCheck) (e : String) : Finding :=
  ⟨Level.error, "DH1004", some e,
    "Validation of node config file \x27%s\x27 failed:\n(%T) %[2]v", [d.NodeConfigFile, e], []⟩

/-- The opening debug finding of the node-config check. -/
def nodeDebugFinding (d : NodeConfigCheck) : Finding :=
  ⟨Level.debug, "DH1001", none, "Looking for node config file at \x27%s\x27",
    [d.NodeConfigFile], []⟩

/-- The error finding emitted when the config file cannot be read/resolved. -/
def nodeReadErrFinding (d : NodeConfigCheck) (e : String) : Finding :=
  ⟨Level.error, "DH1002", some e, "Could not read node config file \x27%s\x27:\n(%T) %[2]v",
    [d.NodeConfigFile, e], []⟩

/-- The info finding emitted when the config file was read successfully. -/
def nodeInfoFinding (d : NodeConfigCheck) : Finding :=
  ⟨Level.info, "DH1003", none, "Found a node config file: %[1]s", [d.NodeConfigFile], []⟩

theorem nodeFoldl_findings (d : NodeConfigCheck) (verrs : List String)
    (r : DiagnosticResult) :
    (verrs.foldl (fun acc e => acc.Errorf "DH1004" (some e)
        "Validation of node config file \x27%s\x27 failed:\n(%T) %[2]v" [d.NodeConfigFile, e])
      r).findings = r.findings ++ verrs.map (nodeVErrFinding d) := by
  induction verrs generalizing r with
  | nil => simp
  | cons e es ih =>
    simp only [List.foldl_cons, List.map_cons]
    rw [ih]
    simp [DiagnosticResult.Errorf, DiagnosticResult.addFinding, nodeVErrFinding]

theorem countLevel_map_nodeVErr (d : NodeConfigCheck) (verrs : List String) :
    countLevel Level.error (verrs.map (nodeVErrFinding d)) = verrs.length := by
  induction verrs with
  | nil => rfl
  | cons e es ih =>
    simp only [List.map_cons, countLevel, List.filter_cons] at ih ⊢
    simp [nodeVErrFinding, ih]

/-- C10: the node-config check's sink always begins with the DH1001 debug
finding; when reading and resolving the config file fails, exactly one
error-level finding (DH1002) follows and validation never runs; otherwise the
DH1003 info finding follows, then one error-level finding (DH1004) per
validation error, so a readable and valid config yields zero error-level
findings. -/
theorem c10_node_config_findings (d : NodeConfigCheck) (readResult : Except String Unit)
    (verrs : List String) :
    (NodeConfigCheck.Check d readResult verrs).findings =
      nodeDebugFinding d :: (match readResult with
        | Except.error e => [nodeReadErrFinding d e]
        | Except.ok _ => nodeInfoFinding d :: verrs.map (nodeVErrFinding d)) ∧
    countLevel Level.error (NodeConfigCheck.Check d readResult verrs).findings =
      (match readResult with
        | Except.error _ => 1
        | Except.ok _ => verrs.length) := by
  cases readResult with
  | error e =>
    constructor
    · rfl
    · simp [NodeConfigCheck.Check, countLevel, List.filter_cons, NewDiagnosticResult,
        DiagnosticResult.Debugf, DiagnosticResult.Errorf, DiagnosticResult.addFinding]
  | ok u =>
    have hf : (NodeConfigCheck.Check d (Except.ok u) verrs).findings =
        nodeDebugFinding d :: nodeInfoFinding d :: verrs.map (nodeVErrFinding d) := by
      simp only [NodeConfigCheck.Check]
      rw [nodeFoldl_findings]
      rfl
    constructor
    · exact hf
    · rw [hf]
      have hv := countLevel_map_nodeVErr d verrs
      simp only [countLevel, List.filter_cons] at hv ⊢
      simpa [nodeDebugFinding, nodeInfoFinding] using hv

end Origin
